import Mathlib

/-!
Shallow embedding of the DataMart sales query service
(app/datamart.py, app/routers/utils.py, app/routers/sales.py).

The sales table is modelled as a list of rows plus an explicit list of
column names (pandas keeps the column set when filtering rows, and
`calculate_totals_and_averages` branches on `len(filtered_df.columns)`).
Dates are modelled exactly: `datetime.strptime(s, '%Y-%m-%d')` is embedded
as a character-level parser with CPython's `_strptime` regex semantics
(`%Y` = four digits, `%m` = `1[0-2]|0[1-9]|[1-9]`, `%d` =
`3[01]|[12]\d|0[1-9]|[1-9]`, whole string must be consumed, then the
`datetime` constructor validates the day against the month and the year
against MINYEAR = 1). Monetary amounts are modelled as rationals; the
pandas mean of an empty series (NaN) is modelled as `Option.none`.
-/

namespace DataMart

/-- A calendar date as produced by `datetime.date`: year, month, day.
Python compares `date` values lexicographically on (year, month, day). -/
structure Date where
  year : Nat
  month : Nat
  day : Nat
deriving DecidableEq, Repr

/-- Lexicographic `<=` on dates, as Boolean, mirroring `datetime.date.__le__`. -/
def Date.ble (a b : Date) : Bool :=
  Nat.blt a.year b.year ||
    (a.year == b.year &&
      (Nat.blt a.month b.month ||
        (a.month == b.month && Nat.ble a.day b.day)))

/-- Propositional reading of `Date.ble`. -/
theorem Date.ble_iff (a b : Date) :
    Date.ble a b = true ↔
      (a.year < b.year ∨
        (a.year = b.year ∧
          (a.month < b.month ∨ (a.month = b.month ∧ a.day ≤ b.day)))) := by
  simp [Date.ble, Nat.blt_eq, Nat.ble_eq, Bool.or_eq_true, Bool.and_eq_true,
    beq_iff_eq]

theorem Date.ble_refl (a : Date) : Date.ble a a = true := by
  simp [Date.ble_iff]

theorem Date.ble_trans {a b c : Date} (h1 : Date.ble a b = true)
    (h2 : Date.ble b c = true) : Date.ble a c = true := by
  rw [Date.ble_iff] at h1 h2 ⊢
  omega

/-- Decimal digit character for a value below ten. -/
def digCh : Nat → Char
  | 0 => '0'
  | 1 => '1'
  | 2 => '2'
  | 3 => '3'
  | 4 => '4'
  | 5 => '5'
  | 6 => '6'
  | 7 => '7'
  | 8 => '8'
  | 9 => '9'
  | _ => '*'

/-- Numeric value of a decimal digit character. -/
def digVal (c : Char) : Nat := c.toNat - 48

/-- Whether a year is a leap year, as computed by `calendar.isleap` /
`datetime`: divisible by 4 and not by 100 unless by 400. -/
def isLeap (y : Nat) : Bool :=
  y % 4 == 0 && (y % 100 != 0 || y % 400 == 0)

/-- Number of days in a month, as enforced by the `datetime` constructor. -/
def daysInMonth (y m : Nat) : Nat :=
  if m == 2 then (if isLeap y then 29 else 28)
  else if m == 4 || m == 6 || m == 9 || m == 11 then 30
  else 31

/-- CPython `_strptime` day field `%d`: regex `3[01]|[12]\d|0[1-9]|[1-9]`,
and the whole remaining input must be consumed (otherwise strptime raises
"unconverted data remains"). Returns the parsed day number. -/
def parseDayEos (cs : List Char) : Option Nat :=
  match cs with
  | [d1] => if '1' ≤ d1 && d1 ≤ '9' then some (digVal d1) else none
  | [d1, d2] =>
    if (d1 == '3' && (d2 == '0' || d2 == '1')) ||
       ((d1 == '1' || d1 == '2') && d2.isDigit) ||
       (d1 == '0' && '1' ≤ d2 && d2 ≤ '9') then
      some (10 * digVal d1 + digVal d2)
    else none
  | _ => none

/-- CPython `_strptime` month field `%m` (regex `1[0-2]|0[1-9]|[1-9]`)
followed by a literal `-` and the `%d` field at end of input.
When the two-digit alternative matches, its second character is a digit,
so backtracking into the one-digit alternative (which would need a `-`
in that position) can never succeed: the alternatives are exclusive. -/
def parseMonthDayEos (cs : List Char) : Option (Nat × Nat) :=
  match cs with
  | m1 :: m2 :: rest =>
    if (m1 == '1' && (m2 == '0' || m2 == '1' || m2 == '2')) ||
       (m1 == '0' && '1' ≤ m2 && m2 ≤ '9') then
      match rest with
      | '-' :: rest2 =>
        (parseDayEos rest2).map (fun d => (10 * digVal m1 + digVal m2, d))
      | _ => none
    else if ('1' ≤ m1 && m1 ≤ '9') && m2 == '-' then
      (parseDayEos rest).map (fun d => (digVal m1, d))
    else none
  | _ => none

/-- Embedding of `datetime.strptime(s, '%Y-%m-%d').date()`: four year
digits, `-`, month, `-`, day, end of string; then the `datetime`
constructor checks `MINYEAR <= year` and `day <= daysInMonth`.
Returns `none` exactly when strptime raises `ValueError`. -/
def parseYMD (s : String) : Option Date :=
  match s.data with
  | y1 :: y2 :: y3 :: y4 :: '-' :: rest =>
    if y1.isDigit && y2.isDigit && y3.isDigit && y4.isDigit then
      let y := 1000 * digVal y1 + 100 * digVal y2 + 10 * digVal y3 + digVal y4
      match parseMonthDayEos rest with
      | some (m, d) =>
        if 1 ≤ y && d ≤ daysInMonth y m then some ⟨y, m, d⟩ else none
      | none => none
    else none
  | _ => none

/-- An `HTTPException` as raised by the service: status code and detail. -/
structure HTTPError where
  status_code : Nat
  detail : String
deriving DecidableEq, Repr

/-- Embedding of `validate_dates` (app/routers/utils.py): parse both
strings with `%Y-%m-%d`; any `ValueError` becomes a 400 with the fixed
message. -/
def validate_dates (start_date end_date : String) :
    Except HTTPError (Date × Date) :=
  match parseYMD start_date, parseYMD end_date with
  | some s, some e => Except.ok (s, e)
  | _, _ => Except.error ⟨400, "Invalid date format. Use YYYY-MM-DD."⟩

example : parseYMD "2023-11-01" = some ⟨2023, 11, 1⟩ := by decide
example : parseYMD "2023-1-5" = some ⟨2023, 1, 5⟩ := by decide
example : parseYMD "2023-02-30" = none := by decide
example : parseYMD "2024-02-29" = some ⟨2024, 2, 29⟩ := by decide
example : parseYMD "2023-02-29" = none := by decide
example : parseYMD "0000-01-01" = none := by decide
example : parseYMD "2023-13-01" = none := by decide
example : parseYMD "2023-11-01 " = none := by decide
example : parseYMD "23-11-01" = none := by decide

/-- A cell of the `KeyDate` column. Parquet snapshots store the column as
timestamps (a date plus a time-of-day component, in nanoseconds);
`pd.to_datetime(df['KeyDate']).dt.date` replaces each cell by its
`datetime.date`. A cell that already holds a date round-trips through
`pd.to_datetime` (midnight timestamp) back to the same date. -/
inductive DateCell where
  | timestamp (d : Date) (timeOfDay : Nat)
  | dateOnly (d : Date)
deriving DecidableEq, Repr

/-- One application of `pd.to_datetime(col).dt.date` to a cell. -/
def normalizeCell : DateCell → DateCell
  | DateCell.timestamp d _ => DateCell.dateOnly d
  | DateCell.dateOnly d => DateCell.dateOnly d

/-- The calendar date carried by a cell. -/
def cellDate : DateCell → Date
  | DateCell.timestamp d _ => d
  | DateCell.dateOnly d => d

/-- The nested `Tickets` value of a row: a record bearing a `NetAmount`
numeric field, accessed in the source as `x['NetAmount']`. -/
structure Ticket where
  netAmount : ℚ
deriving DecidableEq, Repr

/-- One row of the sales table, with the columns the service reads. -/
structure Row where
  keyEmployee : String
  keyProduct : String
  keyStore : String
  keyDate : DateCell
  tickets : Ticket
deriving DecidableEq, Repr

/-- The in-memory pandas DataFrame: its column-name list (`df.columns`)
and its rows. Filtering rows keeps the column list. -/
structure Table where
  cols : List String
  rows : List Row
deriving DecidableEq, Repr

/-- The three key columns accepted by `filter_dataframe`'s `key_column`
argument. -/
inductive KeyColumn where
  | keyEmployee
  | keyProduct
  | keyStore
deriving DecidableEq, Repr

/-- The string held by a row in the given key column. -/
def Row.getKey (r : Row) : KeyColumn → String
  | KeyColumn.keyEmployee => r.keyEmployee
  | KeyColumn.keyProduct => r.keyProduct
  | KeyColumn.keyStore => r.keyStore

/-- `df['KeyDate'] = pd.to_datetime(df['KeyDate']).dt.date` on one row. -/
def normalizeRow (r : Row) : Row := { r with keyDate := normalizeCell r.keyDate }

/-- The same assignment on the whole shared table. -/
def normalizeTable (t : Table) : Table := { t with rows := t.rows.map normalizeRow }

/-- The Boolean row predicate of `filter_dataframe`:
`(df[key_column] == key) & (df['KeyDate'] >= start) & (df['KeyDate'] <= end)`. -/
def rowMatches (key : String) (kc : KeyColumn) (sd ed : Date) (r : Row) : Bool :=
  r.getKey kc == key && Date.ble sd (cellDate r.keyDate) &&
    Date.ble (cellDate r.keyDate) ed

/-- Embedding of `filter_dataframe` (app/routers/sales.py). It validates
the dates, assigns the normalized `KeyDate` column back into the shared
table, and returns the matching rows. The result pairs the table state
after the call (the mutated shared `df`) with the filtered frame. -/
def filter_dataframe (key start_date end_date : String) (kc : KeyColumn)
    (t : Table) : Except HTTPError (Table × Table) :=
  match validate_dates start_date end_date with
  | Except.error e => Except.error e
  | Except.ok (sd, ed) =>
    let t2 := normalizeTable t
    Except.ok (t2, { t2 with rows := t2.rows.filter (rowMatches key kc sd ed) })

/-- Embedding of `get_sales_by_employee`: filter, then 404 on an empty
result, else the matching records. The table state after the call is
returned alongside, since `filter_dataframe` assigns into the shared `df`. -/
def get_sales_by_employee (key_employee start_date end_date : String)
    (t : Table) : Except HTTPError (Table × List Row) :=
  match filter_dataframe key_employee start_date end_date KeyColumn.keyEmployee t with
  | Except.error e => Except.error e
  | Except.ok (t2, filtered) =>
    if filtered.rows.length == 0 then
      Except.error ⟨404, "No sales data found for the given employee and date range."⟩
    else Except.ok (t2, filtered.rows)

/-- Embedding of `get_sales_by_product`. -/
def get_sales_by_product (key_product start_date end_date : String)
    (t : Table) : Except HTTPError (Table × List Row) :=
  match filter_dataframe key_product start_date end_date KeyColumn.keyProduct t with
  | Except.error e => Except.error e
  | Except.ok (t2, filtered) =>
    if filtered.rows.length == 0 then
      Except.error ⟨404, "No sales data found for the given product and date range."⟩
    else Except.ok (t2, filtered.rows)

/-- Embedding of `get_sales_by_store`. -/
def get_sales_by_store (key_store start_date end_date : String)
    (t : Table) : Except HTTPError (Table × List Row) :=
  match filter_dataframe key_store start_date end_date KeyColumn.keyStore t with
  | Except.error e => Except.error e
  | Except.ok (t2, filtered) =>
    if filtered.rows.length == 0 then
      Except.error ⟨404, "No sales data found for the given store and date range."⟩
    else Except.ok (t2, filtered.rows)

/-- Little-endian decimal digit extraction, structurally recursive on a
fuel argument (any fuel at least the number itself is enough). -/
def digitsLEAux (fuel n : Nat) : List Char :=
  match fuel, n with
  | _, 0 => []
  | 0, _ + 1 => []
  | f + 1, m + 1 => digCh ((m + 1) % 10) :: digitsLEAux f ((m + 1) / 10)

/-- Little-endian decimal digit characters of a natural number
(empty for zero; callers special-case zero). -/
def digitsLE (n : Nat) : List Char := digitsLEAux n n

/-- Thousands grouping, structurally recursive on a fuel argument
(any fuel at least the list length is enough). -/
def group3Aux (fuel : Nat) (ds : List Char) : List Char :=
  match fuel with
  | 0 => ds
  | f + 1 =>
    if ds.length ≤ 3 then ds
    else ds.take 3 ++ ',' :: group3Aux f (ds.drop 3)

/-- Little-endian digit characters with `,` inserted after every third
digit, as Python's `,` format option groups thousands from the right. -/
def group3 (ds : List Char) : List Char := group3Aux ds.length ds

/-- The digit characters of a natural number, little-endian, with zero
rendered as a single `0`. -/
def digitsOf (n : Nat) : List Char := if n = 0 then ['0'] else digitsLE n

/-- The integer part rendered big-endian with thousands separators. -/
def intPartChars (n : Nat) : List Char := (group3 (digitsOf n)).reverse

/-- The number of cents displayed for a value: `q * 100` rounded to the
nearest integer, ties to even — the rounding Python's fixed-point float
formatting performs. Computed on the numerator and denominator with exact
integer arithmetic: with `N = 100 * num`, `D = den`, the floor of `N / D`
is adjusted by comparing twice the remainder against `D`. -/
def roundCents (q : ℚ) : ℤ :=
  let N : ℤ := q.num * 100
  let D : ℤ := (q.den : ℤ)
  let fl : ℤ := Int.fdiv N D
  let r : ℤ := N - fl * D
  if 2 * r < D then fl
  else if D < 2 * r then fl + 1
  else if fl % 2 = 0 then fl else fl + 1

/-- Characters of Python's `f"{q:,.2f}"` on an idealized (rational) value:
optional sign, thousands-grouped integer part, `.`, exactly two decimal
digits, rounding half-even at the second decimal. A negative value keeps
its sign even when it rounds to zero cents, as Python does. -/
def fmtTwoDec (q : ℚ) : List Char :=
  let c := roundCents q
  let sign : List Char := if q.num < 0 then ['-'] else []
  let mag := c.natAbs
  sign ++ intPartChars (mag / 100) ++ '.' :: [digCh (mag / 10 % 10), digCh (mag % 10)]

/-- Python's `f"${q:,.2f}"`. -/
def fmtCurrency (q : ℚ) : String := String.mk ('$' :: fmtTwoDec q)

/-- pandas `Series.mean()`: NaN (modelled as `none`) on an empty series,
the arithmetic mean otherwise. -/
def seriesMean (xs : List ℚ) : Option ℚ :=
  if xs.length = 0 then none else some (xs.sum / xs.length)

/-- Formatting of a possibly-NaN mean: `f"${float('nan'):,.2f}"` is
`"$nan"`. -/
def fmtCurrencyOpt : Option ℚ → String
  | none => "$nan"
  | some q => fmtCurrency q

/-- The flat sequence of `NetAmount` values of a frame, one per row:
`filtered_df['Tickets'].apply(lambda x: x['NetAmount'])`. -/
def netAmounts (t : Table) : List ℚ := t.rows.map (fun r => r.tickets.netAmount)

/-- The `total_sales` / `average_sales` response body. -/
structure TotalsResult where
  total_sales : String
  average_sales : String
deriving DecidableEq, Repr

/-- Embedding of `calculate_totals_and_averages` (app/routers/utils.py):
404 when the frame has no columns; otherwise the pandas sum (zero on an
empty series) and mean (NaN on an empty series) of the per-row
`NetAmount` values, currency-formatted. -/
def calculate_totals_and_averages (filtered_df : Table) :
    Except HTTPError TotalsResult :=
  if filtered_df.cols.length = 0 then
    Except.error ⟨404, "No sales data found."⟩
  else
    Except.ok
      { total_sales := fmtCurrency (netAmounts filtered_df).sum
        average_sales := fmtCurrencyOpt (seriesMean (netAmounts filtered_df)) }

/-- Embedding of `get_total_avg_sales_by_store`: key-equality filter on
the raw table (no date validation, no date bounds, no normalization),
then the aggregator. -/
def get_total_avg_sales_by_store (key_store : String) (t : Table) :
    Except HTTPError TotalsResult :=
  calculate_totals_and_averages
    { t with rows := t.rows.filter (fun r => r.keyStore == key_store) }

/-- Embedding of `get_total_avg_sales_by_product`. -/
def get_total_avg_sales_by_product (key_product : String) (t : Table) :
    Except HTTPError TotalsResult :=
  calculate_totals_and_averages
    { t with rows := t.rows.filter (fun r => r.keyProduct == key_product) }

/-- Embedding of `get_total_avg_sales_by_employee`. -/
def get_total_avg_sales_by_employee (key_employee : String) (t : Table) :
    Except HTTPError TotalsResult :=
  calculate_totals_and_averages
    { t with rows := t.rows.filter (fun r => r.keyEmployee == key_employee) }

/-- Embedding of `pd.concat(df_list, ignore_index=True)`: pandas raises
`ValueError("No objects to concatenate")` on an empty list, and otherwise
appends the rows of all frames in order. -/
def pd_concat (dfs : List Table) : Except String Table :=
  match dfs with
  | [] => Except.error ("No objects to concatenate")
  | d :: rest => Except.ok { cols := d.cols, rows := (List.map Table.rows (d :: rest)).flatten }

/-- Embedding of the module body of app/datamart.py: each file matching
`data_chunk*.snappy.parquet` is read into a frame, and the list of frames
(empty when no file matches) is concatenated at import time. -/
def load_datamart (chunks : List Table) : Except String Table := pd_concat chunks

/-- Checker for the shape of a currency string, read little-endian
(lowest digit first): one to three digits, then optionally `,` followed
by three digits, repeated — i.e. thousands groups counted from the right. -/
def okLE : List Char → Bool
  | [] => false
  | [a] => a.isDigit
  | [a, b] => a.isDigit && b.isDigit
  | [a, b, c] => a.isDigit && b.isDigit && c.isDigit
  | a :: b :: c :: ',' :: rest => a.isDigit && b.isDigit && c.isDigit && okLE rest
  | _ => false

/-- Drop one leading minus sign, if present. -/
def stripMinus : List Char → List Char
  | [] => []
  | c :: r => if c = '-' then r else c :: r

/-- Check a currency body reversed: last two characters are decimal
digits, preceded by `.`, preceded by a thousands-grouped integer part. -/
def checkRev : List Char → Bool
  | c2 :: c1 :: '.' :: revInt => c1.isDigit && c2.isDigit && okLE revInt
  | _ => false

/-- Whether a string looks like `$`, an optional `-`, digit groups of at
most three separated by `,` counted from the right, then `.` and exactly
two decimal digits. -/
def hasCurrencyShape (s : String) : Bool :=
  match s.data with
  | '$' :: body => checkRev (stripMinus body).reverse
  | _ => false

/-- The spec's words, for comparison with the source's `strptime` parser:
a string in the exact zero-padded `YYYY-MM-DD` format denoting a valid
calendar date — four year digits, `-`, two month digits, `-`, two day
digits, nothing else. -/
def isStrictYMD (s : String) : Bool :=
  match s.data with
  | [y1, y2, y3, y4, '-', m1, m2, '-', d1, d2] =>
    y1.isDigit && y2.isDigit && y3.isDigit && y4.isDigit &&
    m1.isDigit && m2.isDigit && d1.isDigit && d2.isDigit &&
    (let y := 1000 * digVal y1 + 100 * digVal y2 + 10 * digVal y3 + digVal y4
     let m := 10 * digVal m1 + digVal m2
     let d := 10 * digVal d1 + digVal d2
     Nat.ble 1 y && Nat.ble 1 m && Nat.ble m 12 && Nat.ble 1 d &&
       Nat.ble d (daysInMonth y m))
  | _ => false

/-- Verification device (not part of the source): replace every row's
`KeyDate` cell by an arbitrary function of the row, leaving the other
columns alone. Used to state that the total/average endpoints are
insensitive to the date column. -/
def withDates (f : Row → DateCell) (t : Table) : Table :=
  { t with rows := t.rows.map (fun r => { r with keyDate := f r }) }

/-- A concrete one-row table used to instantiate the theorems: employee
key `"1|343"`, date stored as a timestamp on 2023-11-01 with a nonzero
time-of-day component, one ticket of net amount 10. -/
def sampleTable : Table :=
  ⟨["KeyEmployee", "KeyProduct", "KeyStore", "KeyDate", "Tickets"],
   [⟨"1|343", "p1", "s1", DateCell.timestamp ⟨2023, 11, 1⟩ 7, ⟨10⟩⟩]⟩

example : fmtCurrency (Rat.divInt 123456 100) = "$1,234.56" := by decide
example : fmtCurrency (Rat.divInt 0 1) = "$0.00" := by decide
example : fmtCurrency (Rat.divInt 1234567891 100) = "$12,345,678.91" := by decide
example : fmtCurrency (Rat.divInt (-1) 1000) = "$-0.00" := by decide
example : fmtCurrency (Rat.divInt 5 1000) = "$0.00" := by decide
example : fmtCurrency (Rat.divInt 15 1000) = "$0.02" := by decide
example : fmtCurrency (Rat.divInt 25 1000) = "$0.02" := by decide
example : fmtCurrency (Rat.divInt (-25) 1000) = "$-0.02" := by decide

theorem normalizeCell_idem (c : DateCell) :
    normalizeCell (normalizeCell c) = normalizeCell c := by
  cases c <;> rfl

theorem cellDate_normalizeCell (c : DateCell) :
    cellDate (normalizeCell c) = cellDate c := by
  cases c <;> rfl

theorem normalizeRow_idem (r : Row) :
    normalizeRow (normalizeRow r) = normalizeRow r := by
  simp [normalizeRow, normalizeCell_idem]

theorem normalizeTable_idem (t : Table) :
    normalizeTable (normalizeTable t) = normalizeTable t := by
  simp [normalizeTable, List.map_map, Function.comp_def, normalizeRow_idem]

theorem normalizeTable_cols (t : Table) : (normalizeTable t).cols = t.cols := rfl

/-- C9: the date-column normalization performed by `filter_dataframe` is
idempotent — normalizing the shared table twice equals normalizing it
once, a second `filter_dataframe` call with the same arguments on the
already-normalized table produces the identical outcome, and normalizing
a row changes no field other than `KeyDate`. -/
theorem filter_normalization_idempotent (t : Table)
    (key start_date end_date : String) (kc : KeyColumn) (r : Row) :
    normalizeTable (normalizeTable t) = normalizeTable t ∧
    filter_dataframe key start_date end_date kc (normalizeTable t) =
      filter_dataframe key start_date end_date kc t ∧
    (normalizeRow r).keyEmployee = r.keyEmployee ∧
    (normalizeRow r).keyProduct = r.keyProduct ∧
    (normalizeRow r).keyStore = r.keyStore ∧
    (normalizeRow r).tickets = r.tickets := by
  refine ⟨normalizeTable_idem t, ?_, rfl, rfl, rfl, rfl⟩
  unfold filter_dataframe
  cases validate_dates start_date end_date with
  | error e => rfl
  | ok p => simp [normalizeTable_idem]

/-- C6: the aggregator raises a 404 "No sales data found." exactly when
the input frame has zero columns; with at least one column it returns a
result, whatever the row count (in particular for zero rows). -/
theorem aggregator_404_iff_no_columns (t : Table) :
    (calculate_totals_and_averages t =
        Except.error ⟨404, "No sales data found."⟩ ↔ t.cols = []) ∧
    (t.cols ≠ [] → ∃ res, calculate_totals_and_averages t = Except.ok res) := by
  unfold calculate_totals_and_averages
  rcases t with ⟨cols, rows⟩
  cases cols with
  | nil => simp
  | cons c cs => simp

/-- Witness for C6 at concrete frames: a zero-column frame yields the 404
and a frame with columns but no rows yields a result. -/
theorem aggregator_404_iff_no_columns_witness :
    (calculate_totals_and_averages ⟨[], []⟩ =
        Except.error ⟨404, "No sales data found."⟩) ∧
    (∃ res, calculate_totals_and_averages
        ⟨["KeyEmployee", "KeyProduct", "KeyStore", "KeyDate", "Tickets"], []⟩ =
      Except.ok res) :=
  ⟨(aggregator_404_iff_no_columns ⟨[], []⟩).1.mpr rfl,
   (aggregator_404_iff_no_columns
      ⟨["KeyEmployee", "KeyProduct", "KeyStore", "KeyDate", "Tickets"], []⟩).2
     (by decide)⟩

/-- C5 counterexample: the claim requires a 400 whenever a string is not
in the exact `YYYY-MM-DD` format, but `strptime('%Y-%m-%d')` also accepts
an unpadded month and day: `"2023-1-5"` is not of the exact zero-padded
form, yet `validate_dates` succeeds on it. -/
theorem validate_dates_accepts_unpadded :
    validate_dates "2023-1-5" "2023-01-05" =
      Except.ok (⟨2023, 1, 5⟩, ⟨2023, 1, 5⟩) ∧
    isStrictYMD "2023-1-5" = false := by
  constructor
  · rfl
  · rfl

/-- C5 amended: `validate_dates` raises the 400 with the fixed message
exactly when at least one of the two strings fails to parse under
`strptime`'s `%Y-%m-%d` pattern — which accepts zero-padded and also
unpadded one-digit months and days — and otherwise returns the two parsed
dates. -/
theorem validate_dates_400_iff_parse_fails (s e : String) :
    (validate_dates s e =
        Except.error ⟨400, "Invalid date format. Use YYYY-MM-DD."⟩ ↔
      (parseYMD s = none ∨ parseYMD e = none)) ∧
    (∀ sd ed, parseYMD s = some sd → parseYMD e = some ed →
      validate_dates s e = Except.ok (sd, ed)) := by
  unfold validate_dates
  cases hs : parseYMD s <;> cases he : parseYMD e <;> simp

/-- Witness for the amended C5 at concrete strings: a malformed first
string yields the 400, and two well-formed strings yield their parses. -/
theorem validate_dates_400_iff_parse_fails_witness :
    (validate_dates "2023-02-30" "2023-01-05" =
        Except.error ⟨400, "Invalid date format. Use YYYY-MM-DD."⟩) ∧
    validate_dates "2023-11-01" "2023-11-03" =
      Except.ok (⟨2023, 11, 1⟩, ⟨2023, 11, 3⟩) :=
  ⟨(validate_dates_400_iff_parse_fails "2023-02-30" "2023-01-05").1.mpr
      (Or.inl (by decide)),
   (validate_dates_400_iff_parse_fails "2023-11-01" "2023-11-03").2
      ⟨2023, 11, 1⟩ ⟨2023, 11, 3⟩ (by decide) (by decide)⟩

/-- C8 counterexample: with no matching snapshot file the loader does not
complete with an empty table — `pd.concat` of an empty list raises
`ValueError("No objects to concatenate")` at import time. -/
theorem load_datamart_no_files_raises :
    load_datamart [] = Except.error ("No objects to concatenate") := rfl

/-- C8 amended: with no matching snapshot file the loader raises the
`pd.concat` "No objects to concatenate" error instead of yielding an
empty table; with at least one file it returns the concatenation of all
loaded frames in discovery order. -/
theorem load_datamart_empty_raises_nonempty_concatenates
    (chunks : List Table) :
    (chunks = [] →
      load_datamart chunks = Except.error ("No objects to concatenate")) ∧
    (∀ d rest, chunks = d :: rest →
      load_datamart chunks =
        Except.ok { cols := d.cols, rows := (List.map Table.rows chunks).flatten }) := by
  constructor
  · intro h; subst h; rfl
  · intro d rest h; subst h; rfl

/-- Witness for the amended C8: the empty file list raises, and a
one-chunk list concatenates to that chunk's rows. -/
theorem load_datamart_empty_raises_nonempty_concatenates_witness :
    (load_datamart [] = Except.error ("No objects to concatenate")) ∧
    load_datamart [⟨["Tickets"], []⟩] =
      Except.ok { cols := ["Tickets"], rows := (List.map Table.rows [⟨["Tickets"], []⟩]).flatten } :=
  ⟨(load_datamart_empty_raises_nonempty_concatenates []).1 rfl,
   (load_datamart_empty_raises_nonempty_concatenates [⟨["Tickets"], []⟩]).2
      ⟨["Tickets"], []⟩ [] rfl⟩

/-- C1: with validated dates, `filter_dataframe` returns exactly the rows
of the (date-normalized) table whose key column equals the key by string
equality and whose `KeyDate` lies between the two dates, both bounds
inclusive; in particular a matching row whose date equals the start or
the end of a well-ordered range is included. -/
theorem filter_rows_exact_characterization
    (key start_date end_date : String) (kc : KeyColumn) (t : Table)
    (sd ed : Date)
    (hs : parseYMD start_date = some sd) (he : parseYMD end_date = some ed) :
    ∃ fil, filter_dataframe key start_date end_date kc t =
        Except.ok (normalizeTable t, fil) ∧
      fil.cols = t.cols ∧
      (∀ r, r ∈ fil.rows ↔
        (r ∈ (normalizeTable t).rows ∧ r.getKey kc = key ∧
          Date.ble sd (cellDate r.keyDate) = true ∧
          Date.ble (cellDate r.keyDate) ed = true)) ∧
      (∀ r, r ∈ (normalizeTable t).rows → r.getKey kc = key →
        Date.ble sd ed = true →
        (cellDate r.keyDate = sd ∨ cellDate r.keyDate = ed) →
        r ∈ fil.rows) := by
  refine ⟨{ normalizeTable t with
              rows := (normalizeTable t).rows.filter (rowMatches key kc sd ed) },
          ?_, rfl, ?_, ?_⟩
  · simp [filter_dataframe, validate_dates, hs, he]
  · intro r
    simp [List.mem_filter, rowMatches, Bool.and_eq_true, beq_iff_eq, and_assoc]
  · intro r hr hk hse hdate
    refine List.mem_filter.mpr ⟨hr, ?_⟩
    rcases hdate with h | h
    · simp [rowMatches, hk, h, Date.ble_refl, hse, beq_iff_eq]
    · simp [rowMatches, hk, h, Date.ble_refl, hse, beq_iff_eq]

/-- Witness for C1: applied at key `"1|343"`, range 2023-11-01 to
2023-11-03, and a one-row table whose date is a timestamp on the lower
bound, exercising both parse hypotheses. -/
theorem filter_rows_exact_characterization_witness :
    ∃ fil, filter_dataframe "1|343" "2023-11-01" "2023-11-03"
          KeyColumn.keyEmployee sampleTable =
        Except.ok (normalizeTable sampleTable, fil) ∧
      fil.cols = sampleTable.cols ∧
      (∀ r, r ∈ fil.rows ↔
        (r ∈ (normalizeTable sampleTable).rows ∧
          r.getKey KeyColumn.keyEmployee = "1|343" ∧
          Date.ble ⟨2023, 11, 1⟩ (cellDate r.keyDate) = true ∧
          Date.ble (cellDate r.keyDate) ⟨2023, 11, 3⟩ = true)) ∧
      (∀ r, r ∈ (normalizeTable sampleTable).rows →
        r.getKey KeyColumn.keyEmployee = "1|343" →
        Date.ble ⟨2023, 11, 1⟩ ⟨2023, 11, 3⟩ = true →
        (cellDate r.keyDate = ⟨2023, 11, 1⟩ ∨ cellDate r.keyDate = ⟨2023, 11, 3⟩) →
        r ∈ fil.rows) :=
  filter_rows_exact_characterization "1|343" "2023-11-01" "2023-11-03"
    KeyColumn.keyEmployee sampleTable
    ⟨2023, 11, 1⟩ ⟨2023, 11, 3⟩ (by decide) (by decide)

/-- C2: with validated dates, each detail endpoint returns the non-empty
list of full matching records when at least one row matches, and raises
its 404 exactly when the filtered result is empty. -/
theorem detail_endpoints_404_iff_empty
    (key start_date end_date : String) (t : Table) (sd ed : Date)
    (hs : parseYMD start_date = some sd) (he : parseYMD end_date = some ed) :
    (get_sales_by_employee key start_date end_date t =
        Except.error ⟨404, "No sales data found for the given employee and date range."⟩ ↔
      (normalizeTable t).rows.filter (rowMatches key KeyColumn.keyEmployee sd ed) = []) ∧
    ((normalizeTable t).rows.filter (rowMatches key KeyColumn.keyEmployee sd ed) ≠ [] →
      get_sales_by_employee key start_date end_date t =
        Except.ok (normalizeTable t,
          (normalizeTable t).rows.filter (rowMatches key KeyColumn.keyEmployee sd ed))) ∧
    (get_sales_by_product key start_date end_date t =
        Except.error ⟨404, "No sales data found for the given product and date range."⟩ ↔
      (normalizeTable t).rows.filter (rowMatches key KeyColumn.keyProduct sd ed) = []) ∧
    ((normalizeTable t).rows.filter (rowMatches key KeyColumn.keyProduct sd ed) ≠ [] →
      get_sales_by_product key start_date end_date t =
        Except.ok (normalizeTable t,
          (normalizeTable t).rows.filter (rowMatches key KeyColumn.keyProduct sd ed))) ∧
    (get_sales_by_store key start_date end_date t =
        Except.error ⟨404, "No sales data found for the given store and date range."⟩ ↔
      (normalizeTable t).rows.filter (rowMatches key KeyColumn.keyStore sd ed) = []) ∧
    ((normalizeTable t).rows.filter (rowMatches key KeyColumn.keyStore sd ed) ≠ [] →
      get_sales_by_store key start_date end_date t =
        Except.ok (normalizeTable t,
          (normalizeTable t).rows.filter (rowMatches key KeyColumn.keyStore sd ed))) := by
  refine ⟨?_, ?_, ?_, ?_, ?_, ?_⟩
  · simp only [get_sales_by_employee, filter_dataframe, validate_dates, hs, he]
    cases h : (normalizeTable t).rows.filter (rowMatches key KeyColumn.keyEmployee sd ed) with
    | nil => simp
    | cons a l => simp
  · simp only [get_sales_by_employee, filter_dataframe, validate_dates, hs, he]
    cases h : (normalizeTable t).rows.filter (rowMatches key KeyColumn.keyEmployee sd ed) with
    | nil => simp
    | cons a l => simp
  · simp only [get_sales_by_product, filter_dataframe, validate_dates, hs, he]
    cases h : (normalizeTable t).rows.filter (rowMatches key KeyColumn.keyProduct sd ed) with
    | nil => simp
    | cons a l => simp
  · simp only [get_sales_by_product, filter_dataframe, validate_dates, hs, he]
    cases h : (normalizeTable t).rows.filter (rowMatches key KeyColumn.keyProduct sd ed) with
    | nil => simp
    | cons a l => simp
  · simp only [get_sales_by_store, filter_dataframe, validate_dates, hs, he]
    cases h : (normalizeTable t).rows.filter (rowMatches key KeyColumn.keyStore sd ed) with
    | nil => simp
    | cons a l => simp
  · simp only [get_sales_by_store, filter_dataframe, validate_dates, hs, he]
    cases h : (normalizeTable t).rows.filter (rowMatches key KeyColumn.keyStore sd ed) with
    | nil => simp
    | cons a l => simp

/-- Witness for C2: the endpoints applied at key `"1|343"` and the range
2023-11-01 to 2023-11-03 over `sampleTable`, with the parse hypotheses
discharged. -/
theorem detail_endpoints_404_iff_empty_witness :
    (get_sales_by_employee "1|343" "2023-11-01" "2023-11-03" sampleTable =
        Except.error ⟨404, "No sales data found for the given employee and date range."⟩ ↔
      (normalizeTable sampleTable).rows.filter
        (rowMatches "1|343" KeyColumn.keyEmployee ⟨2023, 11, 1⟩ ⟨2023, 11, 3⟩) = []) ∧
    ((normalizeTable sampleTable).rows.filter
        (rowMatches "1|343" KeyColumn.keyEmployee ⟨2023, 11, 1⟩ ⟨2023, 11, 3⟩) ≠ [] →
      get_sales_by_employee "1|343" "2023-11-01" "2023-11-03" sampleTable =
        Except.ok (normalizeTable sampleTable,
          (normalizeTable sampleTable).rows.filter
            (rowMatches "1|343" KeyColumn.keyEmployee ⟨2023, 11, 1⟩ ⟨2023, 11, 3⟩))) ∧
    (get_sales_by_product "1|343" "2023-11-01" "2023-11-03" sampleTable =
        Except.error ⟨404, "No sales data found for the given product and date range."⟩ ↔
      (normalizeTable sampleTable).rows.filter
        (rowMatches "1|343" KeyColumn.keyProduct ⟨2023, 11, 1⟩ ⟨2023, 11, 3⟩) = []) ∧
    ((normalizeTable sampleTable).rows.filter
        (rowMatches "1|343" KeyColumn.keyProduct ⟨2023, 11, 1⟩ ⟨2023, 11, 3⟩) ≠ [] →
      get_sales_by_product "1|343" "2023-11-01" "2023-11-03" sampleTable =
        Except.ok (normalizeTable sampleTable,
          (normalizeTable sampleTable).rows.filter
            (rowMatches "1|343" KeyColumn.keyProduct ⟨2023, 11, 1⟩ ⟨2023, 11, 3⟩))) ∧
    (get_sales_by_store "1|343" "2023-11-01" "2023-11-03" sampleTable =
        Except.error ⟨404, "No sales data found for the given store and date range."⟩ ↔
      (normalizeTable sampleTable).rows.filter
        (rowMatches "1|343" KeyColumn.keyStore ⟨2023, 11, 1⟩ ⟨2023, 11, 3⟩) = []) ∧
    ((normalizeTable sampleTable).rows.filter
        (rowMatches "1|343" KeyColumn.keyStore ⟨2023, 11, 1⟩ ⟨2023, 11, 3⟩) ≠ [] →
      get_sales_by_store "1|343" "2023-11-01" "2023-11-03" sampleTable =
        Except.ok (normalizeTable sampleTable,
          (normalizeTable sampleTable).rows.filter
            (rowMatches "1|343" KeyColumn.keyStore ⟨2023, 11, 1⟩ ⟨2023, 11, 3⟩))) :=
  detail_endpoints_404_iff_empty "1|343" "2023-11-01" "2023-11-03" sampleTable
    ⟨2023, 11, 1⟩ ⟨2023, 11, 3⟩ (by decide) (by decide)

/-- C10: date validation imposes no ordering between the two dates. For
two well-formed strings whose start parses later than the end, validation
succeeds (no 400), every key-column filter returns the empty subset, and
each detail endpoint responds with its 404. -/
theorem inverted_range_no_400_filter_empty_404
    (key start_date end_date : String) (t : Table) (sd ed : Date)
    (hs : parseYMD start_date = some sd) (he : parseYMD end_date = some ed)
    (hlt : Date.ble sd ed = false) :
    validate_dates start_date end_date = Except.ok (sd, ed) ∧
    (∀ kc, filter_dataframe key start_date end_date kc t =
      Except.ok (normalizeTable t, { normalizeTable t with rows := [] })) ∧
    get_sales_by_employee key start_date end_date t =
      Except.error ⟨404, "No sales data found for the given employee and date range."⟩ ∧
    get_sales_by_product key start_date end_date t =
      Except.error ⟨404, "No sales data found for the given product and date range."⟩ ∧
    get_sales_by_store key start_date end_date t =
      Except.error ⟨404, "No sales data found for the given store and date range."⟩ := by
  have hfalse : ∀ kc r, rowMatches key kc sd ed r = false := by
    intro kc r
    unfold rowMatches
    cases h1 : Date.ble sd (cellDate r.keyDate) with
    | false => simp [h1]
    | true =>
      cases h2 : Date.ble (cellDate r.keyDate) ed with
      | false => simp [h2]
      | true => exact absurd (Date.ble_trans h1 h2) (by simp [hlt])
  have hfil : ∀ kc, (normalizeTable t).rows.filter (rowMatches key kc sd ed) = [] := by
    intro kc
    simp [List.filter_eq_nil_iff, hfalse]
  refine ⟨by simp [validate_dates, hs, he], ?_, ?_, ?_, ?_⟩
  · intro kc
    simp [filter_dataframe, validate_dates, hs, he, hfil kc]
  · simp only [get_sales_by_employee, filter_dataframe, validate_dates, hs, he]
    simp [hfil]
  · simp only [get_sales_by_product, filter_dataframe, validate_dates, hs, he]
    simp [hfil]
  · simp only [get_sales_by_store, filter_dataframe, validate_dates, hs, he]
    simp [hfil]

/-- Witness for C10: start 2023-11-03, end 2023-11-01 (inverted) over
`sampleTable`, whose only row lies between the two dates. -/
theorem inverted_range_no_400_filter_empty_404_witness :
    validate_dates "2023-11-03" "2023-11-01" =
      Except.ok (⟨2023, 11, 3⟩, ⟨2023, 11, 1⟩) ∧
    (∀ kc, filter_dataframe "1|343" "2023-11-03" "2023-11-01" kc sampleTable =
      Except.ok (normalizeTable sampleTable,
        { normalizeTable sampleTable with rows := [] })) ∧
    get_sales_by_employee "1|343" "2023-11-03" "2023-11-01" sampleTable =
      Except.error ⟨404, "No sales data found for the given employee and date range."⟩ ∧
    get_sales_by_product "1|343" "2023-11-03" "2023-11-01" sampleTable =
      Except.error ⟨404, "No sales data found for the given product and date range."⟩ ∧
    get_sales_by_store "1|343" "2023-11-03" "2023-11-01" sampleTable =
      Except.error ⟨404, "No sales data found for the given store and date range."⟩ :=
  inverted_range_no_400_filter_empty_404 "1|343" "2023-11-03" "2023-11-01"
    sampleTable ⟨2023, 11, 3⟩ ⟨2023, 11, 1⟩ (by decide) (by decide) (by decide)

theorem calc_congr_cols_amounts (t1 t2 : Table)
    (hc : t1.cols = t2.cols) (ha : netAmounts t1 = netAmounts t2) :
    calculate_totals_and_averages t1 = calculate_totals_and_averages t2 := by
  unfold calculate_totals_and_averages
  rw [hc, ha]

/-- C4: each total/average endpoint selects rows by equality on its key
column only — no date-range constraint — and passes that subset to the
aggregator; replacing every row's `KeyDate` by anything at all leaves the
endpoint's result unchanged, so the result depends only on the key (and
the non-date data), unlike the detail endpoints. -/
theorem total_avg_endpoints_key_only (k : String) (t : Table) :
    (get_total_avg_sales_by_employee k t =
        calculate_totals_and_averages
          { cols := t.cols, rows := t.rows.filter (fun r => r.keyEmployee == k) } ∧
      (∀ r, r ∈ t.rows.filter (fun r => r.keyEmployee == k) ↔
        (r ∈ t.rows ∧ r.keyEmployee = k)) ∧
      (∀ f, get_total_avg_sales_by_employee k (withDates f t) =
        get_total_avg_sales_by_employee k t)) ∧
    (get_total_avg_sales_by_product k t =
        calculate_totals_and_averages
          { cols := t.cols, rows := t.rows.filter (fun r => r.keyProduct == k) } ∧
      (∀ r, r ∈ t.rows.filter (fun r => r.keyProduct == k) ↔
        (r ∈ t.rows ∧ r.keyProduct = k)) ∧
      (∀ f, get_total_avg_sales_by_product k (withDates f t) =
        get_total_avg_sales_by_product k t)) ∧
    (get_total_avg_sales_by_store k t =
        calculate_totals_and_averages
          { cols := t.cols, rows := t.rows.filter (fun r => r.keyStore == k) } ∧
      (∀ r, r ∈ t.rows.filter (fun r => r.keyStore == k) ↔
        (r ∈ t.rows ∧ r.keyStore = k)) ∧
      (∀ f, get_total_avg_sales_by_store k (withDates f t) =
        get_total_avg_sales_by_store k t)) := by
  refine ⟨⟨rfl, ?_, ?_⟩, ⟨rfl, ?_, ?_⟩, ⟨rfl, ?_, ?_⟩⟩
  · intro r; simp [List.mem_filter]
  · intro f
    unfold get_total_avg_sales_by_employee
    refine calc_congr_cols_amounts _ _ rfl ?_
    simp [netAmounts, withDates, List.filter_map, List.map_map, Function.comp_def]
  · intro r; simp [List.mem_filter]
  · intro f
    unfold get_total_avg_sales_by_product
    refine calc_congr_cols_amounts _ _ rfl ?_
    simp [netAmounts, withDates, List.filter_map, List.map_map, Function.comp_def]
  · intro r; simp [List.mem_filter]
  · intro f
    unfold get_total_avg_sales_by_store
    refine calc_congr_cols_amounts _ _ rfl ?_
    simp [netAmounts, withDates, List.filter_map, List.map_map, Function.comp_def]

theorem digCh_isDigit (n : Nat) (h : n < 10) : (digCh n).isDigit = true := by
  interval_cases n <;> decide

theorem digitsLEAux_digits (fuel : Nat) :
    ∀ n c, c ∈ digitsLEAux fuel n → c.isDigit = true := by
  induction fuel with
  | zero =>
    intro n c hc
    cases n <;> simp [digitsLEAux] at hc
  | succ f ih =>
    intro n c hc
    cases n with
    | zero => simp [digitsLEAux] at hc
    | succ m =>
      rw [digitsLEAux] at hc
      rcases List.mem_cons.mp hc with h | h
      · subst h; exact digCh_isDigit _ (Nat.mod_lt _ (by decide))
      · exact ih _ _ h

theorem digitsOf_ne_nil (n : Nat) : digitsOf n ≠ [] := by
  cases n with
  | zero => simp [digitsOf]
  | succ m => simp [digitsOf, digitsLE, digitsLEAux]

theorem digitsOf_digits (n : Nat) : ∀ c ∈ digitsOf n, c.isDigit = true := by
  intro c hc
  cases n with
  | zero =>
    simp [digitsOf] at hc
    subst hc; decide
  | succ m =>
    rw [digitsOf, if_neg (Nat.succ_ne_zero m), digitsLE] at hc
    exact digitsLEAux_digits _ _ _ hc

theorem group3Aux_chars (fuel : Nat) :
    ∀ ds c, c ∈ group3Aux fuel ds → (c ∈ ds ∨ c = ',') := by
  induction fuel with
  | zero => intro ds c hc; exact Or.inl hc
  | succ f ih =>
    intro ds c hc
    rw [group3Aux] at hc
    by_cases h3 : ds.length ≤ 3
    · rw [if_pos h3] at hc; exact Or.inl hc
    · rw [if_neg h3] at hc
      rcases List.mem_append.mp hc with h | h
      · exact Or.inl (List.take_subset _ _ h)
      · rcases List.mem_cons.mp h with h | h
        · exact Or.inr h
        · rcases ih _ _ h with h' | h'
          · exact Or.inl (List.drop_subset _ _ h')
          · exact Or.inr h'

theorem group3_ne_nil (ds : List Char) (h : ds ≠ []) : group3 ds ≠ [] := by
  rw [group3]
  cases hf : ds.length with
  | zero => exact absurd (List.length_eq_zero.mp hf) h
  | succ f =>
    rw [group3Aux]
    by_cases h3 : ds.length ≤ 3
    · rw [if_pos h3]; exact h
    · rw [if_neg h3]
      rcases ds with _ | ⟨a, tl⟩
      · exact absurd rfl h
      · simp

theorem okLE_group3Aux (fuel : Nat) :
    ∀ ds, ds ≠ [] → (∀ c ∈ ds, c.isDigit = true) → ds.length ≤ fuel + 3 →
      okLE (group3Aux fuel ds) = true := by
  induction fuel with
  | zero =>
    intro ds hne hdig hlen
    rcases ds with _ | ⟨a, _ | ⟨b, _ | ⟨c, _ | ⟨d, tl⟩⟩⟩⟩
    · exact absurd rfl hne
    · simpa [group3Aux, okLE] using hdig a (by simp)
    · simp [group3Aux, okLE, hdig a (by simp), hdig b (by simp)]
    · simp [group3Aux, okLE, hdig a (by simp), hdig b (by simp), hdig c (by simp)]
    · simp at hlen
  | succ f ih =>
    intro ds hne hdig hlen
    by_cases h3 : ds.length ≤ 3
    · rcases ds with _ | ⟨a, _ | ⟨b, _ | ⟨c, _ | ⟨d, tl⟩⟩⟩⟩
      · exact absurd rfl hne
      · simpa [group3Aux, okLE] using hdig a (by simp)
      · simp [group3Aux, okLE, hdig a (by simp), hdig b (by simp)]
      · simp [group3Aux, okLE, hdig a (by simp), hdig b (by simp), hdig c (by simp)]
      · simp at h3
    · rcases ds with _ | ⟨a, _ | ⟨b, _ | ⟨c, _ | ⟨d, tl⟩⟩⟩⟩
      · exact absurd rfl hne
      · simp at h3
      · simp at h3
      · simp at h3
      · rw [group3Aux, if_neg h3]
        have hrec : okLE (group3Aux f (d :: tl)) = true := by
          apply ih
          · simp
          · intro x hx
            exact hdig x (by simp [List.mem_cons] at hx ⊢; tauto)
          · simp at hlen ⊢; omega
        simp [okLE, hdig a (by simp), hdig b (by simp), hdig c (by simp), hrec]

theorem okLE_group3_digitsOf (u : Nat) : okLE (group3 (digitsOf u)) = true := by
  rw [group3]
  exact okLE_group3Aux _ _ (digitsOf_ne_nil u) (digitsOf_digits u)
    (Nat.le_add_right _ 3)

theorem group3_digitsOf_chars (u : Nat) :
    ∀ c ∈ group3 (digitsOf u), c.isDigit = true ∨ c = ',' := by
  intro c hc
  rw [group3] at hc
  rcases group3Aux_chars _ _ _ hc with h | h
  · exact Or.inl (digitsOf_digits u c h)
  · exact Or.inr h

theorem stripMinus_minus (r : List Char) : stripMinus ('-' :: r) = r := by
  simp [stripMinus]

theorem stripMinus_eq_self (l : List Char) (h : ∀ r, l ≠ '-' :: r) :
    stripMinus l = l := by
  cases l with
  | nil => rfl
  | cons c r =>
    rw [stripMinus, if_neg]
    intro hc
    exact h r (by rw [hc])

theorem checkRev_core (g : List Char) (a b : Nat) (ha : a < 10) (hb : b < 10)
    (hok : okLE g = true) :
    checkRev ((g.reverse ++ '.' :: [digCh a, digCh b]).reverse) = true := by
  simp [List.reverse_append, checkRev, digCh_isDigit a ha, digCh_isDigit b hb, hok]

theorem no_minus_head (g : List Char) (hg : g ≠ [])
    (hchars : ∀ c ∈ g, c.isDigit = true ∨ c = ',') :
    ∀ t r, g.reverse ++ t ≠ '-' :: r := by
  intro t r hcontra
  cases hgr : g.reverse with
  | nil => exact hg (by simpa using congrArg List.reverse hgr)
  | cons h0 tl =>
    rw [hgr, List.cons_append] at hcontra
    have hh0 : h0 = '-' := (List.cons.injEq _ _ _ _ ▸ hcontra).1
    have hmem : h0 ∈ g := List.mem_reverse.mp (by rw [hgr]; simp)
    rcases hchars h0 hmem with hd | hc
    · rw [hh0] at hd; exact absurd hd (by decide)
    · rw [hh0] at hc; exact absurd hc (by decide)

theorem hasCurrencyShape_mk (L : List Char) :
    hasCurrencyShape (String.mk ('$' :: L)) = checkRev (stripMinus L).reverse := rfl

theorem fmtTwoDec_eq (q : ℚ) : fmtTwoDec q =
    (if q.num < 0 then ['-'] else []) ++
      intPartChars ((roundCents q).natAbs / 100) ++
      '.' :: [digCh ((roundCents q).natAbs / 10 % 10),
              digCh ((roundCents q).natAbs % 10)] := rfl

theorem fmtCurrency_shape (q : ℚ) : hasCurrencyShape (fmtCurrency q) = true := by
  rw [fmtCurrency, hasCurrencyShape_mk, fmtTwoDec_eq, intPartChars]
  by_cases hq : q.num < 0
  · rw [if_pos hq, List.append_assoc, List.singleton_append, stripMinus_minus]
    exact checkRev_core _ _ _ (Nat.mod_lt _ (by decide)) (Nat.mod_lt _ (by decide))
      (okLE_group3_digitsOf _)
  · rw [if_neg hq, List.nil_append,
      stripMinus_eq_self _ (no_minus_head _ (group3_ne_nil _ (digitsOf_ne_nil _))
        (group3_digitsOf_chars _) _)]
    exact checkRev_core _ _ _ (Nat.mod_lt _ (by decide)) (Nat.mod_lt _ (by decide))
      (okLE_group3_digitsOf _)

/-- C3: on a frame with at least one column and at least one row, the
aggregator returns the arithmetic sum and the arithmetic mean of the
`NetAmount` values drawn from the `Tickets` field across all rows, each
rendered by the currency formatter; both rendered strings have the
dollar-sign/thousands-separators/two-decimals currency shape. -/
theorem aggregator_sum_mean_currency (t : Table)
    (hc : t.cols ≠ []) (hr : t.rows ≠ []) :
    calculate_totals_and_averages t =
      Except.ok
        { total_sales := fmtCurrency (netAmounts t).sum
          average_sales :=
            fmtCurrency ((netAmounts t).sum / ((netAmounts t).length : ℚ)) } ∧
    netAmounts t = t.rows.map (fun r => r.tickets.netAmount) ∧
    hasCurrencyShape (fmtCurrency (netAmounts t).sum) = true ∧
    hasCurrencyShape
      (fmtCurrency ((netAmounts t).sum / ((netAmounts t).length : ℚ))) = true := by
  refine ⟨?_, rfl, fmtCurrency_shape _, fmtCurrency_shape _⟩
  have hlen : (netAmounts t).length ≠ 0 := by
    simpa [netAmounts] using hr
  rw [calculate_totals_and_averages, if_neg (by simpa using hc)]
  rw [seriesMean, if_neg hlen]
  rfl

/-- Witness for C3: `sampleTable` has five columns and one row. -/
theorem aggregator_sum_mean_currency_witness :
    calculate_totals_and_averages sampleTable =
      Except.ok
        { total_sales := fmtCurrency (netAmounts sampleTable).sum
          average_sales :=
            fmtCurrency
              ((netAmounts sampleTable).sum /
                ((netAmounts sampleTable).length : ℚ)) } ∧
    netAmounts sampleTable =
      sampleTable.rows.map (fun r => r.tickets.netAmount) ∧
    hasCurrencyShape (fmtCurrency (netAmounts sampleTable).sum) = true ∧
    hasCurrencyShape
      (fmtCurrency
        ((netAmounts sampleTable).sum /
          ((netAmounts sampleTable).length : ℚ))) = true :=
  aggregator_sum_mean_currency sampleTable (by decide) (by decide)

/-- C7 evidence: on a column-bearing frame with zero rows the code
returns 200 with total `"$0.00"` but `average_sales` `"$nan"` — the NaN
string the spec forbids — because the pandas mean of an empty series is
NaN. -/
theorem aggregator_zero_rows_nan :
    calculate_totals_and_averages
        ⟨["KeyEmployee", "KeyProduct", "KeyStore", "KeyDate", "Tickets"], []⟩ =
      Except.ok { total_sales := "$0.00", average_sales := "$nan" } := rfl

end DataMart
